import Mathlib

/-!
Shallow embedding of `src/csvtojson.py`, a CSV-to-JSON converter for
currency exchange rates, together with proofs of the specified claims.

Modelling conventions:
* An input file is modelled as the list of rows produced by the `csv`
  reader, `List (List String)`; `Option` distinguishes an unreadable or
  missing file (`none`).  For quote-free lines (the only kind the claims
  exercise) the `csv` reader splits a line on commas, which `csvSplitLine`
  reproduces.
* Printed diagnostics are modelled as a list of structured messages in
  print order; `Msg.render` gives the printed text (OS-supplied parts of
  exception messages, such as the path inside a file-not-found message,
  are elided).
* Python `float` values are modelled exactly: a finite result carries the
  exact rational value denoted by the accepted literal (IEEE-754 rounding
  of that value is abstracted away; no claim depends on rounding).
  Unicode digits and non-ASCII whitespace, which `float()` first
  transliterates to ASCII, are outside the model.
* `strftime` year formatting follows the documented zero-padded form of
  `%Y`; platforms may omit the padding for years below 1000, which no
  claim exercises.
-/

namespace CsvToJson

/-! ### Character and digit helpers -/

def isAsciiDigit (c : Char) : Bool :=
  '0' ≤ c && c ≤ '9'

def digitVal (c : Char) : Nat :=
  c.toNat - '0'.toNat

def natOfDigits (cs : List Char) : Nat :=
  cs.foldl (fun a c => a * 10 + digitVal c) 0

def allDigits (cs : List Char) : Bool :=
  cs.all isAsciiDigit

/-- Split a character list on a separator character; an empty input gives
one empty field, mirroring splitting behaviour on strings. -/
def splitOnCharAux (sep : Char) : List Char → List Char → List (List Char)
  | [], acc => [acc.reverse]
  | c :: rest, acc =>
    if c == sep then acc.reverse :: splitOnCharAux sep rest []
    else splitOnCharAux sep rest (c :: acc)

def splitOnChar (sep : Char) (cs : List Char) : List (List Char) :=
  splitOnCharAux sep cs []

/-! ### Date parsing: `datetime.strptime(date_str, "%m/%d/%Y")`

The `%m` directive accepts one or two digits with value 1..12, `%d`
accepts one or two digits with value 1..31, `%Y` accepts exactly four
digits; the whole string must be consumed.  The `datetime` constructor
then validates the day against the month length (proleptic Gregorian
leap years) and requires the year to be at least 1. -/

def isLeapYear (y : Nat) : Bool :=
  y % 4 == 0 && (y % 100 != 0 || y % 400 == 0)

def daysInMonth (y m : Nat) : Nat :=
  if m == 2 then (if isLeapYear y then 29 else 28)
  else if m == 4 || m == 6 || m == 9 || m == 11 then 30
  else 31

def validMonthField (cs : List Char) : Bool :=
  (cs.length == 1 || cs.length == 2) && allDigits cs &&
    decide (1 ≤ natOfDigits cs ∧ natOfDigits cs ≤ 12)

def validDayField (cs : List Char) : Bool :=
  (cs.length == 1 || cs.length == 2) && allDigits cs &&
    decide (1 ≤ natOfDigits cs ∧ natOfDigits cs ≤ 31)

def validYearField (cs : List Char) : Bool :=
  cs.length == 4 && allDigits cs

/-- Result of `datetime.strptime(s, "%m/%d/%Y")`: `some (year, month, day)`
on success, `none` when a `ValueError` is raised. -/
def parseDateMDY (s : String) : Option (Nat × Nat × Nat) :=
  match splitOnChar '/' s.data with
  | [ms, ds, ys] =>
    if validMonthField ms && validDayField ds && validYearField ys then
      let m := natOfDigits ms
      let d := natOfDigits ds
      let y := natOfDigits ys
      if 1 ≤ y ∧ d ≤ daysInMonth y m then some (y, m, d) else none
    else none
  | _ => none

def pad2 (n : Nat) : String :=
  if n < 10 then "0" ++ toString n else toString n

def pad4 (n : Nat) : String :=
  if n < 10 then "000" ++ toString n
  else if n < 100 then "00" ++ toString n
  else if n < 1000 then "0" ++ toString n
  else toString n

/-- `date_obj.strftime("%Y-%m-%d")` for a date already validated by
`strptime`. -/
def isoFormat (y m d : Nat) : String :=
  pad4 y ++ "-" ++ pad2 m ++ "-" ++ pad2 d

/-- Lines 30-35 of the source: reformat the date on parse success, pass
the original string through on `ValueError`. -/
def normalizeDate (s : String) : String :=
  match parseDateMDY s with
  | some (y, m, d) => isoFormat y m d
  | none => s

/-! ### Python `float()` parsing -/

/-- Value of a successful Python `float(...)` call.  A finite value is
recorded as the exact rational denoted by the accepted literal. -/
inductive PyFloatVal where
  | finite (q : Rat)
  | inf (neg : Bool)
  | nan
  deriving DecidableEq, Repr

def isPySpace (c : Char) : Bool :=
  c == ' ' || c == '\t' || c == '\n' || c == '\r' || c == '\x0b' || c == '\x0c'

/-- Underscore validation of numeric literals: every underscore must sit
between two ASCII digits and is removed; otherwise the parse fails. -/
def remUnderscoresAux : Option Char → List Char → Option (List Char)
  | _, [] => some []
  | prev, c :: rest =>
    if c == '_' then
      match prev, rest with
      | some p, n :: _ =>
        if isAsciiDigit p && isAsciiDigit n then remUnderscoresAux (some c) rest
        else none
      | _, _ => none
    else (remUnderscoresAux (some c) rest).map (c :: ·)

def remUnderscores (cs : List Char) : Option (List Char) :=
  remUnderscoresAux none cs

def stripWs (cs : List Char) : List Char :=
  ((cs.dropWhile isPySpace).reverse.dropWhile isPySpace).reverse

def lowerChar (c : Char) : Char :=
  if 'A' ≤ c && c ≤ 'Z' then Char.ofNat (c.toNat + 32) else c

/-- Strip one optional sign; `true` means negative. -/
def splitSign : List Char → Bool × List Char
  | '-' :: rest => (true, rest)
  | '+' :: rest => (false, rest)
  | cs => (false, cs)

def takeDigits (cs : List Char) : List Char × List Char :=
  (cs.takeWhile isAsciiDigit, cs.dropWhile isAsciiDigit)

/-- Exact rational value of the signed decimal `± mant * 10 ^ e`. -/
def decimalValue (neg : Bool) (mant : Nat) (e : Int) : Rat :=
  let n : Int := if neg then -(mant : Int) else (mant : Int)
  if 0 ≤ e then mkRat (n * 10 ^ e.toNat) 1 else mkRat n (10 ^ (-e).toNat)

/-- Parse the unsigned numeric part of a float literal:
`digits [. digits] [exp]`, `. digits [exp]` or `digits . [exp]`, with a
nonempty exponent digit run when an exponent marker is taken, and the
whole input consumed.  `neg` is the sign already stripped from the
front. -/
def parseNumeric (neg : Bool) (cs : List Char) : Option Rat :=
  let (ip, r1) := takeDigits cs
  let (sawDot, fp, r2) :=
    match r1 with
    | '.' :: rest =>
      let (f, r) := takeDigits rest
      (true, f, r)
    | _ => (false, ([] : List Char), r1)
  if ip.isEmpty && fp.isEmpty then none
  else
    let mant : Nat := natOfDigits ip * 10 ^ fp.length + natOfDigits fp
    let expRes : Option (Int × List Char) :=
      match r2 with
      | c :: rest =>
        if lowerChar c == 'e' then
          let (eneg, r3) := splitSign rest
          let (ed, r4) := takeDigits r3
          if ed.isEmpty then none
          else some ((if eneg then -(natOfDigits ed : Int) else (natOfDigits ed : Int)), r4)
        else none
      | [] => none
    match expRes with
    | some (e, r4) =>
      if r4.isEmpty then some (decimalValue neg mant (e - fp.length)) else none
    | none =>
      if r2.isEmpty && (sawDot || !ip.isEmpty) then
        some (decimalValue neg mant (-(fp.length : Int)))
      else none

/-- `float(s)`: `some` of the value on success, `none` when a
`ValueError` is raised. -/
def pyFloatOfString (s : String) : Option PyFloatVal :=
  match remUnderscores s.data with
  | none => none
  | some cs0 =>
    let cs1 := stripWs cs0
    let (neg, cs2) := splitSign cs1
    let low := cs2.map lowerChar
    if low == "inf".data || low == "infinity".data then some (.inf neg)
    else if low == "nan".data then some .nan
    else
      match parseNumeric neg cs2 with
      | some q => some (.finite q)
      | none => none

/-! ### Rows, entries, and the conversion pipeline

`convert_csv_to_json` (source lines 6-66) takes the rows the `csv`
reader yields — `none` standing for an input file that cannot be
opened — and returns the success flag, the written document (`none`
when no output file is written) and the printed diagnostics in order. -/

/-- The polymorphic `rate` field: a number when `float(...)` succeeded,
the original string otherwise. -/
inductive RateVal where
  | num (v : PyFloatVal)
  | str (s : String)
  deriving DecidableEq, Repr

/-- One element of the `exchange_rates` array (source lines 45-49). -/
structure Entry where
  date : String
  currency : String
  rate : RateVal
  deriving DecidableEq, Repr

/-- The JSON document written on success.  The Python code builds the
dictionary on lines 52-54 with the single key `exchange_rates`; the
structure with this one field models that single-key mapping. -/
structure Document where
  exchange_rates : List Entry
  deriving DecidableEq, Repr

/-- Kinds of exception caught by the top-level handler (line 62). -/
inductive ExcKind where
  | fileNotFound
  | stopIteration
  | valueErrorUnpack
  deriving DecidableEq, Repr

/-- One line printed to standard output. -/
inductive Msg where
  | warning (rate currency date : String)
  | success
  | error (k : ExcKind)
  deriving DecidableEq, Repr

/-- Text of the warning printed on line 41 of the source; the grouping
of the concatenation is immaterial to the string value. -/
def warningText (rate currency date : String) : String :=
  "Avertissement: Impossible de convertir le taux \x27" ++
    (rate ++ ("\x27 en nombre pour " ++ (currency ++ (" à la date " ++ date))))

/-- Message text of a caught exception; OS- and path-dependent parts of
the Python exception text are elided. -/
def excText : ExcKind → String
  | .fileNotFound => "[Errno 2] No such file or directory"
  | .stopIteration => ""
  | .valueErrorUnpack => "too many values to unpack (expected 3)"

/-- Rendered text of a printed line.  The success line (source line 60)
also interpolates the output path, which the model elides. -/
def Msg.render : Msg → String
  | .warning r c d => warningText r c d
  | .success => "Conversion réussie. Résultat écrit dans "
  | .error k => "Erreur lors de la conversion: " ++ excText k

/-- Lines 30-42: rate coercion for one row. -/
def coerceRate (r : String) : RateVal :=
  match pyFloatOfString r with
  | some v => .num v
  | none => .str r

/-- The entry built from the three unpacked fields (lines 27-49). -/
def mkEntry (d c r : String) : Entry :=
  ⟨normalizeDate d, c, coerceRate r⟩

/-- Warnings printed while processing one three-field row (lines 38-42):
one warning exactly when the rate fails to parse. -/
def rowWarnings (d c r : String) : List Msg :=
  match pyFloatOfString r with
  | some _ => []
  | none => [.warning r c d]

/-- Body of the loop (lines 25-49) for a single row: rows of fewer than
three fields are skipped; a row of exactly three fields yields an entry
and its warnings; a row of more than three fields makes the unpacking
on line 27 raise `ValueError`, which aborts the run. -/
def processRow : List String → Except ExcKind (Option (Entry × List Msg))
  | [d, c, r] => .ok (some (mkEntry d c r, rowWarnings d c r))
  | row => if row.length < 3 then .ok none else .error .valueErrorUnpack

/-- Observable outcome of one call to `convert_csv_to_json`. -/
structure ConvertResult where
  success : Bool
  output : Option Document
  printed : List Msg
  deriving DecidableEq, Repr

/-- The loop over the data rows, carrying the accumulated entries and
the diagnostics printed so far.  When the rows are exhausted the
document is written and the success line printed (lines 52-60); an
exception aborts with the error line (lines 62-64) and no output. -/
def processRows : List (List String) → List Entry → List Msg → ConvertResult
  | [], acc, ms => ⟨true, some ⟨acc⟩, ms ++ [.success]⟩
  | row :: rest, acc, ms =>
    match processRow row with
    | .error k => ⟨false, none, ms ++ [.error k]⟩
    | .ok none => processRows rest acc ms
    | .ok (some (e, ws)) => processRows rest (acc ++ [e]) (ms ++ ws)

/-- `convert_csv_to_json` (source lines 6-66).  `none` input: `open`
raises `FileNotFoundError`.  An empty row list: `next(csv_reader)` on
line 22 raises `StopIteration`, also caught by the `except Exception`
handler.  Otherwise the first row is the discarded header. -/
def convert_csv_to_json : Option (List (List String)) → ConvertResult
  | none => ⟨false, none, [.error .fileNotFound]⟩
  | some [] => ⟨false, none, [.error .stopIteration]⟩
  | some (_header :: rows) => processRows rows [] []

/-- Row the `csv` reader yields for a quote-free line: an empty line
yields the empty row, any other line is split on commas. -/
def csvSplitLine (s : String) : List String :=
  match s.data with
  | [] => []
  | cs => (splitOnChar ',' cs).map List.asString

/-- The entry built from a row known to have exactly three fields. -/
def mkEntryOfRow : List String → Entry
  | d :: c :: r :: _ => mkEntry d c r
  | _ => ⟨"", "", .str ""⟩

/-- Warnings the loop prints for a list of rows. -/
def msgsOfRows : List (List String) → List Msg
  | [] => []
  | [d, c, r] :: rest => rowWarnings d c r ++ msgsOfRows rest
  | _ :: rest => msgsOfRows rest

/-- Observable outcome of `main` (source lines 68-77): whether the usage
line was printed, the conversion outcome when a conversion ran, and the
process exit status (the script never sets one, so it is always 0). -/
structure MainResult where
  usagePrinted : Bool
  conv : Option ConvertResult
  exitCode : Nat
  deriving DecidableEq, Repr

/-- The output document written by a `main` invocation, if any. -/
def MainResult.outputWritten (m : MainResult) : Option Document :=
  m.conv.bind (·.output)

/-- `main` (source lines 68-77): `argv` is the full `sys.argv`, whose
head is the program name, so exactly two positional arguments means
`argv.length = 3`.  `inputFile` is the file at `argv[1]` as seen by
`convert_csv_to_json`. -/
def main (argv : List String) (inputFile : Option (List (List String))) : MainResult :=
  if argv.length != 3 then ⟨true, none, 0⟩
  else ⟨false, some (convert_csv_to_json inputFile), 0⟩

/-! ### Step equations for the row loop -/

theorem processRows_nil (acc : List Entry) (ms : List Msg) :
    processRows [] acc ms = ⟨true, some ⟨acc⟩, ms ++ [.success]⟩ := rfl

theorem processRows_cons_empty (rest : List (List String)) (acc : List Entry) (ms : List Msg) :
    processRows ([] :: rest) acc ms = processRows rest acc ms := rfl

theorem processRows_cons_one (a : String) (rest : List (List String)) (acc : List Entry)
    (ms : List Msg) : processRows ([a] :: rest) acc ms = processRows rest acc ms := rfl

theorem processRows_cons_two (a b : String) (rest : List (List String)) (acc : List Entry)
    (ms : List Msg) : processRows ([a, b] :: rest) acc ms = processRows rest acc ms := rfl

theorem processRows_cons_three (a b c : String) (rest : List (List String)) (acc : List Entry)
    (ms : List Msg) :
    processRows ([a, b, c] :: rest) acc ms =
      processRows rest (acc ++ [mkEntry a b c]) (ms ++ rowWarnings a b c) := rfl

theorem processRows_cons_long (a b c d : String) (t : List String) (rest : List (List String))
    (acc : List Entry) (ms : List Msg) :
    processRows ((a :: b :: c :: d :: t) :: rest) acc ms =
      ⟨false, none, ms ++ [.error .valueErrorUnpack]⟩ := rfl

/-! ### Loop invariants -/

/-- When no row has more than three fields, the loop terminates the run
successfully: the document collects, in order, one entry per row with
exactly three fields, and the printed lines are the per-row warnings
followed by the success line. -/
theorem processRows_of_le (rows : List (List String)) :
    ∀ acc ms, (∀ r ∈ rows, r.length ≤ 3) →
      processRows rows acc ms =
        ⟨true, some ⟨acc ++ (rows.filter (fun r => r.length == 3)).map mkEntryOfRow⟩,
          ms ++ msgsOfRows rows ++ [.success]⟩ := by
  induction rows with
  | nil =>
    intro acc ms _
    simp [processRows_nil, msgsOfRows]
  | cons row rest ih =>
    intro acc ms h
    have hrest : ∀ r ∈ rest, r.length ≤ 3 := fun r hr => h r (List.mem_cons_of_mem _ hr)
    have hrow : row.length ≤ 3 := h row (List.mem_cons_self row rest)
    rcases row with _ | ⟨a, _ | ⟨b, _ | ⟨c, _ | ⟨d, t⟩⟩⟩⟩
    · rw [processRows_cons_empty, ih _ _ hrest]
      rfl
    · rw [processRows_cons_one, ih _ _ hrest]
      rfl
    · rw [processRows_cons_two, ih _ _ hrest]
      rfl
    · rw [processRows_cons_three, ih _ _ hrest]
      simp [msgsOfRows, mkEntryOfRow, List.filter_cons_of_pos, List.append_assoc]
    · exfalso
      simp at hrow

/-- A row with more than three fields anywhere in the remaining rows
makes the run fail with no document written. -/
theorem processRows_abort (rows : List (List String)) :
    ∀ acc ms, (∃ r ∈ rows, 3 < r.length) →
      (processRows rows acc ms).success = false ∧
      (processRows rows acc ms).output = none := by
  induction rows with
  | nil =>
    intro acc ms h
    simp at h
  | cons row rest ih =>
    intro acc ms h
    have htail : row.length ≤ 3 → ∃ r ∈ rest, 3 < r.length := by
      intro hle
      rcases h with ⟨r, hr, hlen⟩
      rcases List.mem_cons.mp hr with rfl | hmem
      · omega
      · exact ⟨r, hmem, hlen⟩
    rcases row with _ | ⟨a, _ | ⟨b, _ | ⟨c, _ | ⟨d, t⟩⟩⟩⟩
    · rw [processRows_cons_empty]
      exact ih _ _ (htail (by simp))
    · rw [processRows_cons_one]
      exact ih _ _ (htail (by simp))
    · rw [processRows_cons_two]
      exact ih _ _ (htail (by simp))
    · rw [processRows_cons_three]
      exact ih _ _ (htail (by simp))
    · rw [processRows_cons_long]
      exact ⟨rfl, rfl⟩

/-- Whatever document the loop writes extends the accumulator with one
entry per remaining row of exactly three fields, in row order. -/
theorem processRows_output_acc (rows : List (List String)) :
    ∀ acc ms doc, (processRows rows acc ms).output = some doc →
      doc.exchange_rates = acc ++ (rows.filter (fun r => r.length == 3)).map mkEntryOfRow := by
  induction rows with
  | nil =>
    intro acc ms doc h
    rw [processRows_nil] at h
    simp only [Option.some.injEq] at h
    simp [← h]
  | cons row rest ih =>
    intro acc ms doc h
    rcases row with _ | ⟨a, _ | ⟨b, _ | ⟨c, _ | ⟨d, t⟩⟩⟩⟩
    · rw [processRows_cons_empty] at h
      exact ih _ _ _ h
    · rw [processRows_cons_one] at h
      exact ih _ _ _ h
    · rw [processRows_cons_two] at h
      exact ih _ _ _ h
    · rw [processRows_cons_three] at h
      have := ih _ _ _ h
      simpa [mkEntryOfRow, List.append_assoc] using this
    · rw [processRows_cons_long] at h
      exact Option.noConfusion h

/-- A failing loop never writes a document. -/
theorem processRows_failure_no_output (rows : List (List String)) :
    ∀ acc ms, (processRows rows acc ms).success = false →
      (processRows rows acc ms).output = none := by
  induction rows with
  | nil =>
    intro acc ms h
    rw [processRows_nil] at h
    exact Bool.noConfusion h
  | cons row rest ih =>
    intro acc ms h
    rcases row with _ | ⟨a, _ | ⟨b, _ | ⟨c, _ | ⟨d, t⟩⟩⟩⟩
    · rw [processRows_cons_empty] at h ⊢
      exact ih _ _ h
    · rw [processRows_cons_one] at h ⊢
      exact ih _ _ h
    · rw [processRows_cons_two] at h ⊢
      exact ih _ _ h
    · rw [processRows_cons_three] at h ⊢
      exact ih _ _ h
    · rw [processRows_cons_long]

/-! ### The claims -/

/-- C1 counterexample: the claim fails on the code.  On a readable input
whose data row `["01/15/2023", "USD", "1.0", "extra"]` has at least
three fields, the tuple unpacking on line 27 raises `ValueError`, so the
run appends no entry, writes no document, and returns false even though
no I/O-level failure occurred. -/
theorem c1_counterexample_extra_fields_abort :
    convert_csv_to_json
        (some [["Date", "Currency", "Rate"], ["01/15/2023", "USD", "1.0", "extra"]]) =
      ⟨false, none, [.error .valueErrorUnpack]⟩ ∧
    3 ≤ (["01/15/2023", "USD", "1.0", "extra"] : List String).length :=
  ⟨by decide, by decide⟩

/-- C1 (amended): for every input row after the header with exactly
three fields, `convert_csv_to_json` appends exactly one entry, and rows
with fewer than three fields are dropped; per-row date and rate
anomalies never abort the run.  However, a row with more than three
fields makes the unpacking raise `ValueError`, which is caught at top
level: the run aborts, returns false and writes no output, so non-I/O
failures of this one kind also cause a false result. -/
theorem c1_amended_extra_fields (header : List String) (rows : List (List String)) :
    ((∀ r ∈ rows, r.length ≤ 3) →
      convert_csv_to_json (some (header :: rows)) =
        ⟨true, some ⟨(rows.filter (fun r => r.length == 3)).map mkEntryOfRow⟩,
          msgsOfRows rows ++ [.success]⟩) ∧
    ((∃ r ∈ rows, 3 < r.length) →
      (convert_csv_to_json (some (header :: rows))).success = false ∧
      (convert_csv_to_json (some (header :: rows))).output = none) := by
  constructor
  · intro h
    have heq := processRows_of_le rows [] [] h
    exact heq
  · intro h
    exact processRows_abort rows [] [] h

/-- Witness for C1 (amended): a run over one three-field row and one
two-field row succeeds with exactly one entry, and a run over one
four-field row fails with no output. -/
theorem c1_amended_extra_fields_witness :
    convert_csv_to_json (some [["Date", "Currency", "Rate"],
        ["01/15/2023", "USD", "1.0732"], ["01/17/2023", "GBP"]]) =
      ⟨true,
        some ⟨([["01/15/2023", "USD", "1.0732"], ["01/17/2023", "GBP"]].filter
          (fun r => r.length == 3)).map mkEntryOfRow⟩,
        msgsOfRows [["01/15/2023", "USD", "1.0732"], ["01/17/2023", "GBP"]] ++ [.success]⟩ ∧
    ((convert_csv_to_json (some [["Date"], ["a", "b", "c", "d"]])).success = false ∧
      (convert_csv_to_json (some [["Date"], ["a", "b", "c", "d"]])).output = none) :=
  ⟨(c1_amended_extra_fields ["Date", "Currency", "Rate"]
      [["01/15/2023", "USD", "1.0732"], ["01/17/2023", "GBP"]]).1 (by decide),
    (c1_amended_extra_fields ["Date"] [["a", "b", "c", "d"]]).2
      ⟨["a", "b", "c", "d"], by decide, by decide⟩⟩

/-- C2: for every processed row, when the first field parses as a
month/day/year slash-separated date the emitted date equals its
year-month-day reformatting, and when it does not parse the emitted
date is the original string verbatim; either way the row is processed
without raising. -/
theorem c2_date_field_normalization (d c r : String) :
    (∀ y m dd, parseDateMDY d = some (y, m, dd) → (mkEntry d c r).date = isoFormat y m dd) ∧
    (parseDateMDY d = none → (mkEntry d c r).date = d) ∧
    processRow [d, c, r] = .ok (some (mkEntry d c r, rowWarnings d c r)) := by
  refine ⟨?_, ?_, rfl⟩
  · intro y m dd h
    simp [mkEntry, normalizeDate, h]
  · intro h
    simp [mkEntry, normalizeDate, h]

/-- Witness for C2 at a parsing date and at a non-parsing date. -/
theorem c2_date_field_normalization_witness :
    (mkEntry "01/15/2023" "USD" "1.0732").date = isoFormat 2023 1 15 ∧
    (mkEntry "2023-03-04" "EUR" "1").date = "2023-03-04" :=
  ⟨(c2_date_field_normalization "01/15/2023" "USD" "1.0732").1 2023 1 15 (by decide),
    (c2_date_field_normalization "2023-03-04" "EUR" "1").2.1 (by decide)⟩

/-- C3: for every processed row, when the third field parses as a float
the emitted rate is that numeric value and no warning is printed for the
row; when it does not parse, the emitted rate is the original string,
the row yields exactly one warning, and the warning text contains the
unparseable value, the currency and the date. -/
theorem c3_rate_field_coercion (d c r : String) :
    (∀ v, pyFloatOfString r = some v →
      (mkEntry d c r).rate = .num v ∧ rowWarnings d c r = []) ∧
    (pyFloatOfString r = none →
      (mkEntry d c r).rate = .str r ∧
      rowWarnings d c r = [.warning r c d] ∧
      ∃ s₁ s₂ s₃, (Msg.warning r c d).render =
        s₁ ++ (r ++ (s₂ ++ (c ++ (s₃ ++ d))))) := by
  constructor
  · intro v h
    constructor
    · simp [mkEntry, coerceRate, h]
    · simp [rowWarnings, h]
  · intro h
    refine ⟨by simp [mkEntry, coerceRate, h], by simp [rowWarnings, h],
      "Avertissement: Impossible de convertir le taux \x27", "\x27 en nombre pour ",
      " à la date ", rfl⟩

/-- Witness for C3 at a parseable rate and at an unparseable rate. -/
theorem c3_rate_field_coercion_witness :
    ((mkEntry "01/15/2023" "USD" "1.0732").rate = .num (.finite (mkRat 10732 10000)) ∧
      rowWarnings "01/15/2023" "USD" "1.0732" = []) ∧
    ((mkEntry "01/16/2023" "EUR" "bad").rate = .str "bad" ∧
      rowWarnings "01/16/2023" "EUR" "bad" = [.warning "bad" "EUR" "01/16/2023"] ∧
      ∃ s₁ s₂ s₃, (Msg.warning "bad" "EUR" "01/16/2023").render =
        s₁ ++ ("bad" ++ (s₂ ++ ("EUR" ++ (s₃ ++ "01/16/2023"))))) :=
  ⟨(c3_rate_field_coercion "01/15/2023" "USD" "1.0732").1
      (.finite (mkRat 10732 10000)) (by decide),
    (c3_rate_field_coercion "01/16/2023" "EUR" "bad").2 (by decide)⟩

/-- C4: any document the converter writes lists, under the single
`exchange_rates` key (the `Document` structure has exactly that one
field, mirroring the single-key dictionary of lines 52-54), one entry
per data row with exactly three fields, in the order the rows appear in
the input; the header row contributes nothing because only the rows
after it are traversed. -/
theorem c4_document_order (header : List String) (rows : List (List String))
    (doc : Document)
    (h : (convert_csv_to_json (some (header :: rows))).output = some doc) :
    doc.exchange_rates = (rows.filter (fun r => r.length == 3)).map mkEntryOfRow := by
  have := processRows_output_acc rows [] [] doc h
  simpa using this

/-- Witness for C4 on a two-row input. -/
theorem c4_document_order_witness :
    (Document.mk [mkEntry "01/15/2023" "USD" "1.0732"]).exchange_rates =
      ([["01/15/2023", "USD", "1.0732"], ["x", "y"]].filter
        (fun r => r.length == 3)).map mkEntryOfRow :=
  c4_document_order ["Date"] [["01/15/2023", "USD", "1.0732"], ["x", "y"]]
    ⟨[mkEntry "01/15/2023" "USD" "1.0732"]⟩ (by decide)

/-- C5: on the concrete four-line input, the converter succeeds,
produces the two expected entries (USD with numeric rate 1.0732, EUR
with the string rate `bad`), prints exactly one warning line — for the
EUR row — followed by the success line, and drops the two-field GBP
row. -/
theorem c5_round_trip :
    convert_csv_to_json
        (some (["Date,Currency,Rate", "01/15/2023,USD,1.0732", "01/16/2023,EUR,bad",
          "01/17/2023,GBP"].map csvSplitLine)) =
      ⟨true,
        some ⟨[⟨"2023-01-15", "USD", .num (.finite (mkRat 10732 10000))⟩,
          ⟨"2023-01-16", "EUR", .str "bad"⟩]⟩,
        [.warning "bad" "EUR" "01/16/2023", .success]⟩ := by
  decide

/-- C6: invoked with an argument count other than exactly two positional
arguments (so `sys.argv` length differing from 3), the program prints
the usage message, runs no conversion, writes no output file, and in
every case terminates with exit status 0, never a distinct one. -/
theorem c6_usage_on_bad_arg_count (argv : List String)
    (f : Option (List (List String))) :
    (argv.length ≠ 3 →
      main argv f = ⟨true, none, 0⟩ ∧ (main argv f).outputWritten = none) ∧
    (main argv f).exitCode = 0 := by
  constructor
  · intro h
    have hb : (argv.length != 3) = true := by simpa using h
    simp [main, hb, MainResult.outputWritten]
  · simp only [main]
    split <;> rfl

/-- Witness for C6 with a single-element argument vector. -/
theorem c6_usage_on_bad_arg_count_witness :
    main ["convert_exchange_rates.py"] none = ⟨true, none, 0⟩ ∧
    (main ["convert_exchange_rates.py"] none).outputWritten = none :=
  (c6_usage_on_bad_arg_count ["convert_exchange_rates.py"] none).1 (by decide)

/-- C7: for a nonexistent or unreadable input path, the converter
returns false, the printed output is exactly one error diagnostic line,
and no output file is created. -/
theorem c7_missing_input_file :
    convert_csv_to_json none = ⟨false, none, [.error .fileNotFound]⟩ ∧
    (convert_csv_to_json none).printed.length = 1 :=
  ⟨rfl, rfl⟩

/-- C8: the output file is written only after the whole input has been
consumed, so any failure during reading or row processing leaves the
result with no output document: a false result always comes with no
output written. -/
theorem c8_failure_writes_nothing (f : Option (List (List String)))
    (h : (convert_csv_to_json f).success = false) :
    (convert_csv_to_json f).output = none := by
  rcases f with _ | (_ | ⟨header, rows⟩)
  · rfl
  · rfl
  · exact processRows_failure_no_output rows [] [] h

/-- Witness for C8 at a failing input. -/
theorem c8_failure_writes_nothing_witness :
    (convert_csv_to_json none).success = false ∧
    (convert_csv_to_json none).output = none :=
  ⟨by decide, c8_failure_writes_nothing none (by decide)⟩

/-- C9: on a completely empty input file the `next(csv_reader)` call of
line 22 raises `StopIteration`, which the top-level handler catches: the
converter returns false, prints one error diagnostic, and writes no
output document — it does not produce an empty `exchange_rates`
array. -/
theorem c9_empty_input_file :
    convert_csv_to_json (some []) = ⟨false, none, [.error .stopIteration]⟩ ∧
    (convert_csv_to_json (some [])).printed.length = 1 :=
  ⟨by decide, by decide⟩

/-- C10: on an input consisting of only a header line, whatever its
content, the converter succeeds and writes the document whose
`exchange_rates` array is empty. -/
theorem c10_header_only_input (header : List String) :
    convert_csv_to_json (some [header]) = ⟨true, some ⟨[]⟩, [.success]⟩ :=
  rfl

end CsvToJson

/-! ### Sanity checks of the embedded Python semantics -/

example : CsvToJson.parseDateMDY "01/15/2023" = some (2023, 1, 15) := by decide
example : CsvToJson.parseDateMDY "3/4/2023" = some (2023, 3, 4) := by decide
example : CsvToJson.parseDateMDY "13/4/2023" = none := by decide
example : CsvToJson.parseDateMDY "02/29/2023" = none := by decide
example : CsvToJson.parseDateMDY "02/29/2024" = some (2024, 2, 29) := by decide
example : CsvToJson.parseDateMDY "2023-03-04" = none := by decide
example : CsvToJson.normalizeDate "3/4/2023" = "2023-03-04" := by decide
example : CsvToJson.pyFloatOfString "1.0732" = some (.finite (mkRat 10732 10000)) := by decide
example : CsvToJson.pyFloatOfString "bad" = none := by decide
example : CsvToJson.pyFloatOfString "  -1.5e2  " = some (.finite (mkRat (-150) 1)) := by decide
example : CsvToJson.pyFloatOfString "1_0" = some (.finite (mkRat 10 1)) := by decide
example : CsvToJson.pyFloatOfString "1_" = none := by decide
example : CsvToJson.pyFloatOfString "Inf" = some (.inf false) := by decide
example : CsvToJson.pyFloatOfString "nan" = some .nan := by decide
example : CsvToJson.pyFloatOfString "" = none := by decide
example : CsvToJson.pyFloatOfString "1." = some (.finite (mkRat 1 1)) := by decide
example : CsvToJson.pyFloatOfString ".5" = some (.finite (mkRat 1 2)) := by decide
example : CsvToJson.pyFloatOfString "." = none := by decide
example : CsvToJson.pyFloatOfString "1e" = none := by decide
example : CsvToJson.pyFloatOfString "1e2" = some (.finite (mkRat 100 1)) := by decide
example : CsvToJson.csvSplitLine "01/17/2023,GBP" = ["01/17/2023", "GBP"] := by decide
example : CsvToJson.csvSplitLine "" = [] := by decide
example : CsvToJson.csvSplitLine "a,,b" = ["a", "", "b"] := by decide
